import Mathlib

/-!
Shallow embedding of the core of the `recall` transcription application,
together with proofs checking the natural-language specification against it.

Conventions used throughout:
* Python floats are modelled as rationals (`Rat`); every numeric value that
  the embedded code manipulates (progress percentages, clamps) is exactly
  representable.
* A Python function that can `raise` is modelled as returning
  `Except String α`; `Except.error` is a raised exception carrying the
  message, `Except.ok` a normal return.
* Python `None`-able values are `Option`; Python truthiness of an optional
  string (`if x:`) is `pyTruthy`, true exactly when the value is present and
  non-empty.
* Filesystem and network effects are abstracted into explicit oracle
  functions passed as arguments; the control flow around them is translated
  line by line from the source.
-/

namespace Recall

/-- Python truthiness of an `Optional[str]`: `None` and `""` are falsy. -/
def pyTruthy : Option String → Bool
  | none => false
  | some s => s ≠ ""

/-! ### Python string primitives

The handful of `str` methods the embedded code uses, implemented over the
character list of the string (Python strings are character sequences; none
of the code below is byte-position sensitive). -/

/-- Python `str.strip()` with no argument: remove leading and trailing
whitespace. -/
def pyStrip (s : String) : String :=
  String.mk (((s.data.dropWhile Char.isWhitespace).reverse.dropWhile
    Char.isWhitespace).reverse)

/-- Python `str.lower()` (ASCII case folding; the strings this program lowers are
file paths). -/
def pyLower (s : String) : String :=
  String.mk (s.data.map Char.toLower)

/-- Python `str.startswith(pre)`. -/
def pyStartsWith (s pre : String) : Bool :=
  pre.data.isPrefixOf s.data

/-- Python `str.endswith(suf)`. -/
def pyEndsWith (s suf : String) : Bool :=
  suf.data.isSuffixOf s.data

/-- Python `s[:n]` on characters. -/
def pyTake (s : String) (n : Nat) : String :=
  String.mk (s.data.take n)

/-- Python `len(s)` in characters. -/
def pyLen (s : String) : Nat :=
  s.data.length

/-- Python `sub in s` for a non-empty `sub`: some contiguous run of `s` equals
`sub`. -/
def containsSubList : List Char → List Char → Bool
  | _, [] => true
  | [], _ :: _ => false
  | c :: rest, pat =>
      pat.isPrefixOf (c :: rest) || containsSubList rest pat

/-- Python `sub in s`. -/
def pyContains (s sub : String) : Bool :=
  containsSubList s.data sub.data

/-- The numeric value of a non-empty all-digit character list (the digit
loop of CPython's `int`). -/
def digitsToNat (cs : List Char) : Option Nat :=
  if cs ≠ [] ∧ cs.all Char.isDigit then
    some (cs.foldl (fun n c => n * 10 + (c.toNat - '0'.toNat)) 0)
  else
    none

/-! ## Job model — `src/models/jobs.py`

`JobStatus` and the Pydantic model `TranscriptionJob`, with the five mutating
operations.  `datetime` values are abstracted to `Option Unit` (only
presence/absence is observable to the embedded operations); the `id` and
`created_at` fields play no role in any operation and `created_at` is
omitted. -/

/-- The `JobStatus` enum from `src/models/jobs.py`. -/
inductive JobStatus
  | pending
  | processing
  | completed
  | failed
  | cancelled
deriving DecidableEq, Repr

/-- The string value of a `JobStatus` (the Pydantic model stores enum values
as strings; error messages interpolate them). -/
def JobStatus.value : JobStatus → String
  | .pending => "pending"
  | .processing => "processing"
  | .completed => "completed"
  | .failed => "failed"
  | .cancelled => "cancelled"

/-- The Pydantic `TranscriptionJob` model (mutable fields only). -/
structure TranscriptionJob where
  id : String
  filename : String
  status : JobStatus
  startedAt : Option Unit
  completedAt : Option Unit
  errorMessage : Option String
  result : Option String
  progress : Rat
deriving DecidableEq, Repr

/-- A freshly constructed `TranscriptionJob(filename=...)` with the model's
field defaults. -/
def newJob (id filename : String) : TranscriptionJob :=
  { id := id
    filename := filename
    status := JobStatus.pending
    startedAt := none
    completedAt := none
    errorMessage := none
    result := none
    progress := 0 }

/-- Method `TranscriptionJob.mark_processing`: only legal from `pending`; sets the
start time and resets progress to 0. -/
def markProcessing (j : TranscriptionJob) : Except String TranscriptionJob :=
  if j.status ≠ JobStatus.pending then
    Except.error ("Cannot transition from " ++ j.status.value ++ " to PROCESSING")
  else
    Except.ok { j with status := JobStatus.processing, startedAt := some (), progress := 0 }

/-- Method `TranscriptionJob.mark_completed`: legal from `processing` or `pending`;
stores the result, sets progress to 100 and clears `error_message`. -/
def markCompleted (j : TranscriptionJob) (result : String) : Except String TranscriptionJob :=
  if j.status ≠ JobStatus.processing ∧ j.status ≠ JobStatus.pending then
    Except.error ("Cannot transition from " ++ j.status.value ++ " to COMPLETED")
  else
    Except.ok { j with status := JobStatus.completed, completedAt := some (),
                       result := some result, progress := 100, errorMessage := none }

/-- Method `TranscriptionJob.mark_failed`: the source has no status guard at all;
from any state it stores the error message and clears `result`. -/
def markFailed (j : TranscriptionJob) (error : String) : Except String TranscriptionJob :=
  Except.ok { j with status := JobStatus.failed, completedAt := some (),
                     errorMessage := some error, result := none }

/-- Method `TranscriptionJob.mark_cancelled`: rejected from `completed` and `failed`,
allowed from anywhere else. -/
def markCancelled (j : TranscriptionJob) : Except String TranscriptionJob :=
  if j.status = JobStatus.completed ∨ j.status = JobStatus.failed then
    Except.error ("Cannot cancel job with status " ++ j.status.value)
  else
    Except.ok { j with status := JobStatus.cancelled, completedAt := some () }

/-- Method `TranscriptionJob.update_progress`: rejected unless `processing`; accepted
values are clamped into `[0, 100]` (the optional message argument is
ignored by the source). -/
def updateProgress (j : TranscriptionJob) (progress : Rat) : Except String TranscriptionJob :=
  if j.status ≠ JobStatus.processing then
    Except.error ("Cannot update progress for job with status " ++ j.status.value)
  else
    Except.ok { j with progress := max 0 (min 100 progress) }

/-- Property `TranscriptionJob.is_complete`: terminal-state test. -/
def isComplete (j : TranscriptionJob) : Bool :=
  j.status = JobStatus.completed ∨ j.status = JobStatus.failed ∨ j.status = JobStatus.cancelled

/-- One invocation of a job-API operation, with its argument. -/
inductive JobOp
  | markProcessing
  | markCompleted (result : String)
  | markFailed (error : String)
  | markCancelled
  | updateProgress (progress : Rat)
deriving Repr

/-- Apply one operation; a raised `ValueError` leaves the job unchanged
(every guard in the source precedes every mutation). -/
def applyOp (j : TranscriptionJob) : JobOp → TranscriptionJob
  | JobOp.markProcessing =>
      match markProcessing j with
      | Except.ok j' => j'
      | Except.error _ => j
  | JobOp.markCompleted r =>
      match markCompleted j r with
      | Except.ok j' => j'
      | Except.error _ => j
  | JobOp.markFailed e =>
      match markFailed j e with
      | Except.ok j' => j'
      | Except.error _ => j
  | JobOp.markCancelled =>
      match markCancelled j with
      | Except.ok j' => j'
      | Except.error _ => j
  | JobOp.updateProgress p =>
      match updateProgress j p with
      | Except.ok j' => j'
      | Except.error _ => j

/-- Run a sequence of job-API operations. -/
def runOps (j : TranscriptionJob) : List JobOp → TranscriptionJob
  | [] => j
  | op :: ops => runOps (applyOp j op) ops

/-- A job holds at most one of `result` / `error_message`. -/
def exclusiveOutcome (j : TranscriptionJob) : Prop :=
  ¬ (j.result.isSome ∧ j.errorMessage.isSome)

/-! ## Whisper response parser — `src/core/whisper/models.py` and
`src/core/whisper/response_parser.py` -/

/-- The `WhisperSegment` Pydantic model (`start`/`end` timing fields are never
read by the parser and are omitted). -/
structure WhisperSegment where
  text : String
  speaker : Option String
deriving DecidableEq, Repr

/-- The `WhisperResponse` Pydantic model. -/
structure WhisperResponse where
  text : Option String
  segments : Option (List WhisperSegment)
  error : Option String
deriving DecidableEq, Repr

/-- Python truthiness of `Optional[List[...]]`: `None` and `[]` are falsy. -/
def pyListTruthy : Option (List WhisperSegment) → Bool
  | none => false
  | some l => l ≠ []

/-- CPython `int(s)` on an underscore-free string: surrounding whitespace is
stripped, then an optional single sign followed by at least one digit;
anything else raises `ValueError` (here: `none`).  (The digit-grouping
underscore syntax cannot reach this program's call site: the parsed string
is taken from between two underscores of a `str.split("_")`.) -/
def pyInt (s : String) : Option Int :=
  match (pyStrip s).data with
  | '-' :: rest => (digitsToNat rest).map (fun n => -(n : Int))
  | '+' :: rest => (digitsToNat rest).map (fun n => (n : Int))
  | rest => (digitsToNat rest).map (fun n => (n : Int))

/-- Method `WhisperResponseParser.map_speaker_label`.  Here `speaker_id.split("_")[1]`
for a string starting with `"SPEAKER_"` is the maximal run after the first
underscore that contains no further underscore.  Python's
`chr(65 + speaker_num)` raises `ValueError` for negative arguments, which
the source catches and turns into the pass-through return (the upper
`chr` bound `0x110000` is unreachable because `speaker_num < 26`). -/
def mapSpeakerLabel (speakerId : String) : String :=
  if speakerId = "" ∨ speakerId = "Unknown" then
    "Speaker"
  else if pyStartsWith speakerId "SPEAKER_" then
    let part := String.mk ((speakerId.data.drop 8).takeWhile (· ≠ '_'))
    match pyInt part with
    | some speakerNum =>
        if speakerNum < 26 then
          if 65 + speakerNum < 0 then
            speakerId
          else
            "Speaker " ++ String.singleton (Char.ofNat (65 + speakerNum).toNat)
        else
          "Speaker " ++ toString (speakerNum + 1)
    | none => speakerId
  else
    speakerId

/-- Python `segment.speaker or 'Unknown'`: the raw speaker with `None`/`""`
replaced by `"Unknown"`. -/
def segmentSpeaker (seg : WhisperSegment) : String :=
  match seg.speaker with
  | some s => if s ≠ "" then s else "Unknown"
  | none => "Unknown"

/-- The mapped label of a segment, as computed inside the aggregation
loop. -/
def segmentLabel (seg : WhisperSegment) : String :=
  mapSpeakerLabel (segmentSpeaker seg)

/-- Flush the accumulated texts of the current speaker onto the line list
(`if current_speaker and current_texts:` — `current_speaker` is truthy when
it is a non-empty string). -/
def flushSpeaker (currentSpeaker : Option String) (currentTexts lines : List String) :
    List String :=
  if pyTruthy currentSpeaker ∧ currentTexts ≠ [] then
    lines ++ [currentSpeaker.getD "" ++ ": " ++ String.intercalate " " currentTexts]
  else
    lines

/-- The `for segment in segments` loop of
`WhisperResponseParser.aggregate_speaker_segments`, with the trailing
flush of the last speaker. -/
def aggregateGo (currentSpeaker : Option String) (currentTexts lines : List String) :
    List WhisperSegment → List String
  | [] => flushSpeaker currentSpeaker currentTexts lines
  | seg :: rest =>
      let text := pyStrip seg.text
      if text = "" then
        aggregateGo currentSpeaker currentTexts lines rest
      else
        let speakerLabel := segmentLabel seg
        if some speakerLabel ≠ currentSpeaker then
          aggregateGo (some speakerLabel) [text]
            (flushSpeaker currentSpeaker currentTexts lines) rest
        else
          aggregateGo currentSpeaker (currentTexts ++ [text]) lines rest

/-- Method `WhisperResponseParser.aggregate_speaker_segments`. -/
def aggregateSpeakerSegments (segments : List WhisperSegment) : String :=
  if segments = [] then ""
  else String.intercalate "\n" (aggregateGo none [] [] segments)

/-- Python `any(seg.speaker and seg.speaker != 'Unknown' for seg in segments)`. -/
def hasSpeakers (segments : List WhisperSegment) : Bool :=
  segments.any (fun seg => pyTruthy seg.speaker ∧ seg.speaker ≠ some "Unknown")

/-- Method `WhisperResponseParser.process_response`. -/
def processResponse (response : WhisperResponse) : String :=
  if pyTruthy response.error then
    ""
  else if pyListTruthy response.segments then
    let segments := response.segments.getD []
    if hasSpeakers segments then
      aggregateSpeakerSegments segments
    else
      String.intercalate " "
        ((segments.filter (fun seg => seg.text ≠ "")).map (fun seg => pyStrip seg.text))
  else if pyTruthy response.text then
    response.text.getD ""
  else
    ""

/-- Method `WhisperResponseParser.has_speech_content`. -/
def hasSpeechContent (response : WhisperResponse) : Bool :=
  if pyTruthy response.error then
    false
  else if pyListTruthy response.segments then
    (response.segments.getD []).any (fun seg => seg.text ≠ "" ∧ pyStrip seg.text ≠ "")
  else
    pyTruthy response.text ∧ pyStrip (response.text.getD "") ≠ ""

/-- What `WhisperTranscriber.transcribe_file` does with a parsed response
(`src/core/whisper/transcriber.py`, after the HTTP call): the returned
string, and the phase/progress of the final progress event it emits. -/
structure TranscribeOutcome where
  returned : String
  finalPhase : String
  finalProgress : Int
deriving DecidableEq, Repr

/-- The post-response tail of `WhisperTranscriber.transcribe_file`: the
response is parsed, and if it carries no speech content the silent-audio
error event (`progress = -1`, phase `"error"`) is emitted and `""`
returned; otherwise the `"completed"` event at 100 is emitted and the
transcript returned. -/
def transcribeResponseOutcome (response : WhisperResponse) : TranscribeOutcome :=
  let fullTranscript := processResponse response
  if ¬ hasSpeechContent response then
    { returned := "", finalPhase := "error", finalProgress := -1 }
  else
    { returned := fullTranscript, finalPhase := "completed", finalProgress := 100 }

/-! ## Audio handler — `src/core/audio_handler.py` -/

/-- What `os.path.basename` returns for the paths this program builds: the
part after the last `/`. -/
def basename (path : String) : String :=
  String.mk ((path.data.reverse.takeWhile (· ≠ '/')).reverse)

/-- Python `os.path.dirname`: everything before the last `/` (empty when there is
no `/`). -/
def dirname (path : String) : String :=
  String.mk (((path.data.reverse.dropWhile (· ≠ '/')).drop 1).reverse)

/-- Python `os.path.join` for the shapes used here (second component relative). -/
def pathJoin (dir name : String) : String :=
  if dir = "" then name
  else if pyEndsWith dir "/" then dir ++ name
  else dir ++ "/" ++ name

/-- A recorded `AudioSegment.export` invocation. -/
structure ExportCall where
  outPath : String
  format : String
  parameters : List String
deriving DecidableEq, Repr

/-- The filesystem/decoder effects `prepare_audio` depends on, abstracted:
`fileSize` is `os.path.getsize` (`none` = `OSError`, e.g. missing file),
`decode` is `AudioSegment.from_file` (`none` = decode failure, otherwise
the decoded duration in milliseconds; the AMR branch of the source differs
only in the decoder format hint), and `exportSize` is the size of the file
produced by `AudioSegment.export` at a given path (`none` = not created). -/
structure MediaEnv where
  fileSize : String → Option Nat
  decode : String → Option Nat
  exportSize : String → Option Nat

/-- The result of `AudioHandler.prepare_audio`: the returned path (or `None`),
the updated per-instance `temp_files` registry, and the export invocation
performed, if any. -/
structure PrepareResult where
  output : Option String
  tempFiles : List String
  exported : Option ExportCall
deriving DecidableEq, Repr

/-- Method `AudioHandler.prepare_audio`.  Empty files, decode failures and
zero-duration audio return `None`; a non-WAV input (by case-insensitive
extension of the full path) is exported to
`temp_<original-basename>.wav` next to the source with 16kHz mono WAV
parameters and the temp path is added to the registry (a Python `set`:
insert-if-absent); a `.wav` input is returned unchanged with no export and
no registry entry.  The sub-1-second branch only logs a warning. -/
def prepareAudio (env : MediaEnv) (tempFiles : List String) (path : String) :
    PrepareResult :=
  match env.fileSize path with
  | none => { output := none, tempFiles := tempFiles, exported := none }
  | some fileSize =>
    if fileSize = 0 then
      { output := none, tempFiles := tempFiles, exported := none }
    else
      match env.decode path with
      | none => { output := none, tempFiles := tempFiles, exported := none }
      | some durationMs =>
        if durationMs = 0 then
          { output := none, tempFiles := tempFiles, exported := none }
        else if ¬ (pyEndsWith (pyLower path) ".wav") then
          let tempPath := pathJoin (dirname path) ("temp_" ++ basename path ++ ".wav")
          let call : ExportCall :=
            { outPath := tempPath, format := "wav",
              parameters := ["-ar", "16000", "-ac", "1"] }
          match env.exportSize tempPath with
          | none => { output := none, tempFiles := tempFiles, exported := some call }
          | some exportedSize =>
            if exportedSize = 0 then
              { output := none, tempFiles := tempFiles, exported := some call }
            else
              { output := some tempPath, tempFiles := tempFiles.insert tempPath,
                exported := some call }
        else
          { output := some path, tempFiles := tempFiles, exported := none }

/-- State touched by `AudioHandler.cleanup_temp_file`: the per-instance
`temp_files` registry and the set of paths existing on disk. -/
structure HandlerFsState where
  tempFiles : List String
  fsFiles : List String
deriving DecidableEq, Repr

/-- Method `AudioHandler.cleanup_temp_file`: only a registered path is acted on —
it is removed from disk (if present there) and dropped from the registry;
any other path is a no-op.  `set.remove` / `os.remove` are set removals,
modelled by `filter`. -/
def cleanupTempFile (st : HandlerFsState) (path : String) : HandlerFsState :=
  if path ∈ st.tempFiles then
    { tempFiles := st.tempFiles.filter (· ≠ path),
      fsFiles := st.fsFiles.filter (· ≠ path) }
  else
    st

/-! ## Web job processing loop — `src/web/api.py` and `src/core/jobs.py` -/

/-- One entry of `job.results` as appended by `process_transcription_job`
(the JSON transcript path on disk is filesystem output and not modelled). -/
structure WebFileResult where
  file : String
  status : String
  transcriptPreview : Option String
  error : Option String
deriving DecidableEq, Repr

/-- The mutable state of the plain `src/core/jobs.py` `TranscriptionJob`
used by the web API (timestamps abstracted away). -/
structure WebJob where
  files : List String
  status : String
  progress : Rat
  currentFile : String
  results : List WebFileResult
  error : Option String
deriving Repr

/-- A fresh web-API job over the given uploaded file paths. -/
def newWebJob (files : List String) : WebJob :=
  { files := files, status := "pending", progress := 0, currentFile := "",
    results := [], error := none }

/-- The per-file pipeline effects of `process_transcription_job`,
abstracted: `prepare` is `audio_handler.prepare_audio` (`None` = failure),
`transcribe` is `transcriber.transcribe_file` followed by
`format_transcript_to_string` (`none` = the transcriber returned no
object). -/
structure PipelineEnv where
  prepare : String → Option String
  transcribe : String → Option String

/-- Python `transcript_text[:200] + '...'` preview truncation. -/
def transcriptPreview (t : String) : String :=
  if pyLen t > 200 then pyTake t 200 ++ "..." else t

/-- The body of the per-file `try` block of `process_transcription_job`:
each `raise` site becomes an `Except.error` carrying the message the
source raises (`AudioHandlerError`, `TranscriptionError`,
`SilentAudioError`). -/
def processOneFile (env : PipelineEnv) (path : String) : Except String String :=
  match env.prepare path with
  | none => Except.error "Failed to prepare audio file for transcription"
  | some preparedPath =>
    match env.transcribe preparedPath with
    | none => Except.error "Transcription failed and returned no object."
    | some transcriptText =>
      if transcriptText = "" ∨ pyContains transcriptText "silent"
          ∨ pyContains transcriptText "no detectable speech" then
        Except.error
          (if transcriptText = "" then
            "Transcription returned empty or silent result."
          else transcriptText)
      else
        Except.ok transcriptText

/-- The result entry appended for one file: `completed` with a preview on
success, `error` with the exception message on any caught failure. -/
def mkFileResult (file : String) : Except String String → WebFileResult
  | Except.ok transcriptText =>
      { file := file, status := "completed",
        transcriptPreview := some (transcriptPreview transcriptText), error := none }
  | Except.error e =>
      { file := file, status := "error", transcriptPreview := none, error := some e }

/-- One iteration of the `for i, file_path in enumerate(job.files)` loop:
set `current_file` and `progress`, run the guarded per-file pipeline,
append exactly one result entry. -/
def stepFile (env : PipelineEnv) (totalFiles i : Nat) (job : WebJob) (path : String) :
    WebJob :=
  let job := { job with currentFile := basename path,
                        progress := (i : Rat) / (totalFiles : Rat) * 100 }
  { job with results := job.results ++ [mkFileResult job.currentFile (processOneFile env path)] }

/-- The file loop of `process_transcription_job`. -/
def runFiles (env : PipelineEnv) (totalFiles : Nat) :
    Nat → WebJob → List String → WebJob
  | _, job, [] => job
  | i, job, path :: rest => runFiles env totalFiles (i + 1) (stepFile env totalFiles i job path) rest

/-- Function `process_transcription_job`: mark processing, run the loop, then mark
the job completed at 100%.  Within the modelled pipeline every per-file
failure is caught inside the loop, so the job-fatal outer handler is
unreachable (it guards filesystem writes that are outside the model). -/
def processTranscriptionJob (env : PipelineEnv) (job : WebJob) : WebJob :=
  let job := { job with status := "processing" }
  let job := runFiles env job.files.length 0 job job.files
  { job with status := "completed", progress := 100 }

/-! ## Cloud backend — `src/core/assemblyai_transcriber.py` and
`src/features/transcription/assemblyai.py` -/

/-- Observable behaviour of one `AssemblyAITranscriber.transcribe_file`
call: the progress events emitted (phase, progress), whether the SDK
transcription API was invoked, and the outcome (`Except.error` = the call
raised). -/
structure CloudCallTrace where
  progressEvents : List (String × Int)
  apiCalled : Bool
  outcome : Except String String
deriving Repr

/-- The constructor of `AssemblyAITranscriber` creates an SDK transcriber
only when a truthy API key is configured; otherwise `self.transcriber`
is `None`. -/
def assemblyAIConfigured (apiKey : Option String) : Bool :=
  pyTruthy apiKey

/-- Method `AssemblyAITranscriptionService.is_available`:
`bool(self.config.assemblyai_api_key)`. -/
def assemblyAIIsAvailable (apiKey : Option String) : Bool :=
  pyTruthy apiKey

/-- The exception message raised by `transcribe_file` when no transcriber
was configured. -/
def noApiKeyMessage : String :=
  "No API key configured. Please set your AssemblyAI API key in Settings > API Key."

/-- Method `AssemblyAITranscriber.transcribe_file`: with no configured transcriber
it emits one error progress event and raises *before* the `try` block
(so the exception propagates to the caller and no API call is made);
otherwise the body runs, abstracted here as an oracle trace. -/
def assemblyAITranscribeFile (configured : Bool) (body : CloudCallTrace) : CloudCallTrace :=
  if ¬ configured then
    { progressEvents := [("error", -1)], apiCalled := false,
      outcome := Except.error noApiKeyMessage }
  else
    body

/-- Whether a modelled call raised (`Except.error`) rather than returned. -/
def exceptRaises {α : Type} : Except String α → Bool
  | Except.error _ => true
  | Except.ok _ => false

end Recall

namespace Recall

/-! ## Helper lemmas -/

/-- Job operations preserve mutual exclusion of `result` and
`error_message`. -/
theorem applyOp_exclusive (j : TranscriptionJob) (op : JobOp)
    (h : exclusiveOutcome j) : exclusiveOutcome (applyOp j op) := by
  cases op with
  | markProcessing =>
      by_cases hs : j.status = JobStatus.pending <;>
        simp_all [applyOp, markProcessing, exclusiveOutcome]
  | markCompleted r =>
      by_cases hp : j.status = JobStatus.processing <;>
      by_cases hq : j.status = JobStatus.pending <;>
        simp_all [applyOp, markCompleted, exclusiveOutcome]
  | markFailed e =>
      simp [applyOp, markFailed, exclusiveOutcome]
  | markCancelled =>
      by_cases hc : j.status = JobStatus.completed <;>
      by_cases hf : j.status = JobStatus.failed <;>
        simp_all [applyOp, markCancelled, exclusiveOutcome]
  | updateProgress p =>
      by_cases hs : j.status = JobStatus.processing <;>
        simp_all [applyOp, updateProgress, exclusiveOutcome]

/-- Mutual exclusion is preserved by any sequence of operations. -/
theorem runOps_exclusive (ops : List JobOp) (j : TranscriptionJob)
    (h : exclusiveOutcome j) : exclusiveOutcome (runOps j ops) := by
  induction ops generalizing j with
  | nil => exact h
  | cons op ops ih => exact ih (applyOp j op) (applyOp_exclusive j op h)

/-! ## C1 — terminality of `completed` / `failed` / `cancelled` -/

/-- C1 counterexample: the claim says no job-API operation moves a job out
of a terminal state, but `mark_failed` is unguarded — on a job that has
already reached `completed` it succeeds and changes the status to
`failed`. -/
theorem c1_counterexample :
    (runOps (newJob "job-1" "a.mp3")
      [JobOp.markProcessing, JobOp.markCompleted "done"]).status = JobStatus.completed
    ∧ (runOps (newJob "job-1" "a.mp3")
      [JobOp.markProcessing, JobOp.markCompleted "done", JobOp.markFailed "late failure"]).status
        = JobStatus.failed := by
  exact ⟨rfl, rfl⟩

/-- C1 (amended): for a job in a terminal state (`completed`, `failed` or
`cancelled`), `mark_processing`, `mark_completed` and `update_progress`
always raise, and `mark_cancelled` either raises or (from `cancelled`)
leaves the status unchanged — but `mark_failed` always succeeds and sets
the status to `failed`, so `completed` and `cancelled` can be left through
it and only `failed` is fully terminal. -/
theorem c1_terminal_except_markFailed (j : TranscriptionJob)
    (h : isComplete j = true) :
    exceptRaises (markProcessing j) = true
    ∧ (∀ r, exceptRaises (markCompleted j r) = true)
    ∧ (∀ p, exceptRaises (updateProgress j p) = true)
    ∧ (∀ j', markCancelled j = Except.ok j' → j'.status = j.status)
    ∧ (∀ e j', markFailed j e = Except.ok j' → j'.status = JobStatus.failed) := by
  cases hs : j.status <;>
    simp_all [isComplete, markProcessing, markCompleted, updateProgress,
      markCancelled, markFailed, exceptRaises]

/-- C1 witness: the amended theorem applied to a concrete completed job. -/
theorem c1_terminal_except_markFailed_witness :
    exceptRaises (markProcessing (runOps (newJob "job-1" "a.mp3")
      [JobOp.markProcessing, JobOp.markCompleted "done"])) = true
    ∧ exceptRaises (markCompleted (runOps (newJob "job-1" "a.mp3")
      [JobOp.markProcessing, JobOp.markCompleted "done"]) "again") = true := by
  have h := c1_terminal_except_markFailed
    (runOps (newJob "job-1" "a.mp3") [JobOp.markProcessing, JobOp.markCompleted "done"])
    (by decide)
  exact ⟨h.1, h.2.1 "again"⟩

/-! ## C6 — progress monotonicity while `processing` -/

/-- C6 counterexample: while `processing` with progress 50, the update to
`-1` (the error sentinel a backend progress callback forwards) is
*accepted* and leaves progress 0 < 50, so accepted updates are not
monotonically non-decreasing. -/
theorem c6_counterexample :
    (runOps (newJob "job-2" "b.mp3")
      [JobOp.markProcessing, JobOp.updateProgress 50]).status = JobStatus.processing
    ∧ (runOps (newJob "job-2" "b.mp3")
      [JobOp.markProcessing, JobOp.updateProgress 50]).progress = 50
    ∧ exceptRaises (updateProgress (runOps (newJob "job-2" "b.mp3")
      [JobOp.markProcessing, JobOp.updateProgress 50]) (-1)) = false
    ∧ (runOps (newJob "job-2" "b.mp3")
      [JobOp.markProcessing, JobOp.updateProgress 50, JobOp.updateProgress (-1)]).progress = 0
    ∧ ((0 : Rat) < 50) := by
  refine ⟨rfl, ?_, rfl, ?_, by norm_num⟩ <;>
    norm_num [runOps, applyOp, markProcessing, updateProgress, newJob]

/-- C6 (amended): progress updates are accepted exactly while the status is
`processing`; an accepted update stores the new value clamped into
`[0, 100]` — nothing enforces monotonicity, so an accepted update may
decrease `progress`. -/
theorem c6_update_clamps_not_monotone (j : TranscriptionJob) (p : Rat) :
    (j.status = JobStatus.processing →
      updateProgress j p = Except.ok { j with progress := max 0 (min 100 p) }
      ∧ (0 : Rat) ≤ max 0 (min 100 p) ∧ max 0 (min 100 p) ≤ 100)
    ∧ (j.status ≠ JobStatus.processing → exceptRaises (updateProgress j p) = true) := by
  constructor
  · intro hs
    refine ⟨by simp [updateProgress, hs], le_max_left _ _, ?_⟩
    simp only [max_le_iff]
    exact ⟨by norm_num, min_le_left _ _⟩
  · intro hs
    simp [updateProgress, hs, exceptRaises]

/-- C6 witness: the amended theorem applied to a concrete processing job
(the `-1` sentinel is accepted and clamped to 0) and to a concrete pending
job (rejected). -/
theorem c6_update_clamps_not_monotone_witness :
    updateProgress (runOps (newJob "job-2" "b.mp3")
        [JobOp.markProcessing, JobOp.updateProgress 50]) (-1)
      = Except.ok { (runOps (newJob "job-2" "b.mp3")
        [JobOp.markProcessing, JobOp.updateProgress 50]) with progress := max 0 (min 100 (-1)) }
    ∧ exceptRaises (updateProgress (newJob "job-3" "c.mp3") 10) = true := by
  exact ⟨((c6_update_clamps_not_monotone (runOps (newJob "job-2" "b.mp3")
      [JobOp.markProcessing, JobOp.updateProgress 50]) (-1)).1 rfl).1,
    (c6_update_clamps_not_monotone (newJob "job-3" "c.mp3") 10).2 (by decide)⟩

/-! ## C9 — idempotent cleanup -/

/-- C9: `cleanup_temp_file` removes a path only when it is in the owned-temp
registry; cleaning the same path twice is idempotent, and cleaning a
never-owned path is a no-op on both the registry and the filesystem. -/
theorem c9_cleanup_idempotent (st : HandlerFsState) (p : String) :
    cleanupTempFile (cleanupTempFile st p) p = cleanupTempFile st p
    ∧ (p ∉ st.tempFiles → cleanupTempFile st p = st) := by
  have noop : ∀ st' : HandlerFsState, p ∉ st'.tempFiles → cleanupTempFile st' p = st' := by
    intro st' h'
    simp [cleanupTempFile, h']
  constructor
  · by_cases h : p ∈ st.tempFiles
    · exact noop _ (by simp [cleanupTempFile, h])
    · rw [noop st h, noop st h]
  · exact noop st

/-- C9 witness: concrete registry `["t1"]` and filesystem
`["t1", "keep"]`; cleaning `"t1"` twice equals cleaning it once, and
cleaning the never-owned `"keep"` changes nothing. -/
theorem c9_cleanup_idempotent_witness :
    cleanupTempFile (cleanupTempFile ⟨["t1"], ["t1", "keep"]⟩ "t1") "t1"
      = cleanupTempFile ⟨["t1"], ["t1", "keep"]⟩ "t1"
    ∧ cleanupTempFile ⟨["t1"], ["t1", "keep"]⟩ "keep" = ⟨["t1"], ["t1", "keep"]⟩ := by
  exact ⟨(c9_cleanup_idempotent ⟨["t1"], ["t1", "keep"]⟩ "t1").1,
    (c9_cleanup_idempotent ⟨["t1"], ["t1", "keep"]⟩ "keep").2 (by decide)⟩

/-! ## C10 — `result` / `error_message` mutual exclusion -/

/-- C10: starting from a freshly constructed job, no sequence of job-API
operations ever leaves both `result` and `error_message` set:
`mark_completed` stores the result and clears the error message, and
`mark_failed` stores the error message and clears the result. -/
theorem c10_result_error_exclusive (id filename : String) (ops : List JobOp) :
    exclusiveOutcome (runOps (newJob id filename) ops) := by
  apply runOps_exclusive
  simp [exclusiveOutcome, newJob]

/-! ## C2 — per-file failures never abort the loop -/

/-- The file loop appends exactly one result entry per file, in submission
order. -/
theorem runFiles_results (env : PipelineEnv) (totalFiles : Nat) (files : List String)
    (i : Nat) (job : WebJob) :
    (runFiles env totalFiles i job files).results
      = job.results
        ++ files.map (fun path => mkFileResult (basename path) (processOneFile env path)) := by
  induction files generalizing i job with
  | nil => simp [runFiles]
  | cons path rest ih =>
      simp only [runFiles, ih (i + 1) (stepFile env totalFiles i job path), List.map_cons]
      simp [stepFile]

/-- The file loop does not touch the job status. -/
theorem runFiles_status (env : PipelineEnv) (totalFiles : Nat) (files : List String)
    (i : Nat) (job : WebJob) :
    (runFiles env totalFiles i job files).status = job.status := by
  induction files generalizing i job with
  | nil => rfl
  | cons path rest ih =>
      simp only [runFiles, ih (i + 1) (stepFile env totalFiles i job path)]
      rfl

/-- Every appended result entry is either `completed` or `error`. -/
theorem mkFileResult_status (file : String) (r : Except String String) :
    (mkFileResult file r).status = "completed" ∨ (mkFileResult file r).status = "error" := by
  cases r <;> simp [mkFileResult]

/-- C2: for any per-file pipeline behaviour — including preparation
failures, transcription failures and silent-audio detection, each of which
makes `processOneFile` raise — the job loop appends exactly one result
entry per file, in submission order, each entry `completed` or `error`,
and the job finishes with status `completed` (no modelled failure is
job-fatal). -/
theorem c2_per_file_failures_isolated (env : PipelineEnv) (files : List String) :
    (processTranscriptionJob env (newWebJob files)).results
      = files.map (fun path => mkFileResult (basename path) (processOneFile env path))
    ∧ (processTranscriptionJob env (newWebJob files)).results.length = files.length
    ∧ (∀ r ∈ (processTranscriptionJob env (newWebJob files)).results,
        r.status = "completed" ∨ r.status = "error")
    ∧ (processTranscriptionJob env (newWebJob files)).status = "completed" := by
  have h1 : (processTranscriptionJob env (newWebJob files)).results
      = files.map (fun path => mkFileResult (basename path) (processOneFile env path)) := by
    simp only [processTranscriptionJob]
    rw [runFiles_results]
    simp [newWebJob]
  refine ⟨h1, ?_, ?_, by simp [processTranscriptionJob]⟩
  · rw [h1, List.length_map]
  · intro r hr
    rw [h1] at hr
    simp only [List.mem_map] at hr
    obtain ⟨path, _, rfl⟩ := hr
    exact mkFileResult_status _ _

/-- C2 witness: a three-file job in which file 2 fails preparation still
produces one result per file (3 results) and finishes `completed`. -/
theorem c2_per_file_failures_isolated_witness :
    (processTranscriptionJob
        { prepare := fun p => if p = "f2.mp3" then none else some ("temp_" ++ p ++ ".wav"),
          transcribe := fun p => some ("transcript of " ++ p) }
        (newWebJob ["f1.mp3", "f2.mp3", "f3.mp3"])).results.length = 3
    ∧ (processTranscriptionJob
        { prepare := fun p => if p = "f2.mp3" then none else some ("temp_" ++ p ++ ".wav"),
          transcribe := fun p => some ("transcript of " ++ p) }
        (newWebJob ["f1.mp3", "f2.mp3", "f3.mp3"])).status = "completed" := by
  refine ⟨?_, ?_⟩
  · exact ((c2_per_file_failures_isolated
      { prepare := fun p => if p = "f2.mp3" then none else some ("temp_" ++ p ++ ".wav"),
        transcribe := fun p => some ("transcript of " ++ p) }
      ["f1.mp3", "f2.mp3", "f3.mp3"]).2.1).trans (by decide)
  · exact (c2_per_file_failures_isolated
      { prepare := fun p => if p = "f2.mp3" then none else some ("temp_" ++ p ++ ".wav"),
        transcribe := fun p => some ("transcript of " ++ p) }
      ["f1.mp3", "f2.mp3", "f3.mp3"]).2.2.2

/-! ## C4 — backend errors are propagated as a failure signal -/

/-- C4: for a response whose `error` field is non-empty, the parser
produces no transcript and reports no speech content, so the transcriber
emits the `(-1, "error")` progress event and returns `""` — the caller
observes the `error` phase, never the `completed` phase of a successful
(necessarily content-bearing) transcription, so the outcome is
distinguishable from any successful result. -/
theorem c4_error_propagates (r : WhisperResponse) (h : pyTruthy r.error = true) :
    transcribeResponseOutcome r
      = { returned := "", finalPhase := "error", finalProgress := -1 }
    ∧ (transcribeResponseOutcome r).finalPhase ≠ "completed"
    ∧ processResponse r = ""
    ∧ hasSpeechContent r = false := by
  have hc : hasSpeechContent r = false := by
    simp [hasSpeechContent, h]
  have hp : processResponse r = "" := by
    simp [processResponse, h]
  refine ⟨?_, ?_, hp, hc⟩ <;> simp [transcribeResponseOutcome, hc]

/-- C4 witness: a concrete error response. -/
theorem c4_error_propagates_witness :
    transcribeResponseOutcome { text := none, segments := none, error := some "backend exploded" }
      = { returned := "", finalPhase := "error", finalProgress := -1 } :=
  (c4_error_propagates { text := none, segments := none, error := some "backend exploded" }
    (by decide)).1

/-! ## C5 — cloud backend without an API key -/

/-- C5 counterexample: with no API key the transcriber is not configured
and `transcribe_file` *raises* (`Except.error`, before its `try` block)
instead of returning an error-populated result, contradicting the
must-not-raise contract; the availability check and the short-circuit
(no API call) do hold. -/
theorem c5_counterexample :
    assemblyAITranscribeFile (assemblyAIConfigured none)
        { progressEvents := [], apiCalled := false, outcome := Except.ok "unused" }
      = { progressEvents := [("error", -1)], apiCalled := false,
          outcome := Except.error noApiKeyMessage }
    ∧ exceptRaises (assemblyAITranscribeFile (assemblyAIConfigured none)
        { progressEvents := [], apiCalled := false, outcome := Except.ok "unused" }).outcome
      = true
    ∧ assemblyAIIsAvailable none = false := by
  exact ⟨rfl, rfl, rfl⟩

/-- C5 (amended): without a truthy API key, `is_available()` is false and
every `transcribe_file` call short-circuits before any API call — but it
does so by emitting one error progress event and then *raising* the
no-API-key exception, not by returning an error-populated result. -/
theorem c5_no_key_short_circuits_and_raises (apiKey : Option String)
    (h : pyTruthy apiKey = false) (body : CloudCallTrace) :
    assemblyAIIsAvailable apiKey = false
    ∧ assemblyAITranscribeFile (assemblyAIConfigured apiKey) body
      = { progressEvents := [("error", -1)], apiCalled := false,
          outcome := Except.error noApiKeyMessage } := by
  refine ⟨h, ?_⟩
  simp [assemblyAITranscribeFile, assemblyAIConfigured, h]

/-! ## C7 — consecutive-only merging of speaker segments -/

/-- A non-empty string prefixed onto anything is non-empty. -/
theorem append_ne_empty_of_left_ne_empty (x y : String) (hx : x ≠ "") :
    x ++ y ≠ "" := by
  intro h
  apply hx
  have hd := congrArg String.data h
  rw [String.data_append] at hd
  rcases List.append_eq_nil.mp hd with ⟨hx', _⟩
  exact String.ext hx'

/-- Method `map_speaker_label` never produces the empty string from a non-empty
input. -/
theorem mapSpeakerLabel_ne_empty (x : String) (hx : x ≠ "") :
    mapSpeakerLabel x ≠ "" := by
  unfold mapSpeakerLabel
  split
  · intro h
    simp at h
  · split
    · dsimp only
      split
      · split
        · split
          · exact hx
          · exact append_ne_empty_of_left_ne_empty _ _ (by decide)
        · exact append_ne_empty_of_left_ne_empty _ _ (by decide)
      · exact hx
    · exact hx

/-- The label the aggregation loop assigns to a segment is never the empty
string (so the `current_speaker` truthiness test never drops a pending
line). -/
theorem segmentLabel_ne_empty (seg : WhisperSegment) : segmentLabel seg ≠ "" := by
  unfold segmentLabel segmentSpeaker
  cases seg.speaker with
  | none => simp only; exact mapSpeakerLabel_ne_empty _ (by decide)
  | some s =>
      simp only
      by_cases hs : s = ""
      · simp only [hs]
        exact mapSpeakerLabel_ne_empty _ (by decide)
      · rw [if_pos hs]
        exact mapSpeakerLabel_ne_empty _ hs

/-- The aggregation loop ignores segments whose stripped text is empty. -/
theorem aggregateGo_filter (segs : List WhisperSegment) (cur : Option String)
    (texts lines : List String) :
    aggregateGo cur texts lines segs
      = aggregateGo cur texts lines (segs.filter (fun s => pyStrip s.text ≠ "")) := by
  induction segs generalizing cur texts lines with
  | nil => rfl
  | cons seg rest ih =>
      simp only [aggregateGo, List.filter_cons, decide_not]
      by_cases h : pyStrip seg.text = ""
      · rw [if_pos h, if_neg (by simp [h])]
        simpa only [decide_not] using ih cur texts lines
      · rw [if_neg h, if_pos (show (!decide (pyStrip seg.text = "")) = true by simp [h])]
        simp only [aggregateGo]
        rw [if_neg h]
        split
        · simpa only [decide_not] using ih _ _ _
        · simpa only [decide_not] using ih _ _ _

/-- C7: if the segments with non-empty stripped text are exactly
`[s1, s2, s3, s4, s5]` with mapped labels `[A, A, B, B, A]` (`A ≠ B`), the
aggregation produces exactly three lines, in the order `A`, `B`, `A`, each
of the form `<Label>: <texts of the run joined by one space>` — segments
are merged only when consecutive, never globally grouped by speaker. -/
theorem c7_consecutive_only_merging (segs : List WhisperSegment)
    (s1 s2 s3 s4 s5 : WhisperSegment) (a b : String)
    (hf : segs.filter (fun s => pyStrip s.text ≠ "") = [s1, s2, s3, s4, s5])
    (h1 : segmentLabel s1 = a) (h2 : segmentLabel s2 = a)
    (h3 : segmentLabel s3 = b) (h4 : segmentLabel s4 = b)
    (h5 : segmentLabel s5 = a) (hab : a ≠ b) :
    aggregateSpeakerSegments segs
      = String.intercalate "\n"
          [a ++ ": " ++ String.intercalate " " [pyStrip s1.text, pyStrip s2.text],
           b ++ ": " ++ String.intercalate " " [pyStrip s3.text, pyStrip s4.text],
           a ++ ": " ++ String.intercalate " " [pyStrip s5.text]] := by
  have hmem : ∀ s ∈ [s1, s2, s3, s4, s5], pyStrip s.text ≠ "" := by
    intro s hs
    have hmem' : s ∈ segs.filter (fun s => pyStrip s.text ≠ "") := hf ▸ hs
    have := (List.mem_filter.mp hmem').2
    simpa using this
  have ht1 : ¬ (pyStrip s1.text = "") := hmem s1 (by simp)
  have ht2 : ¬ (pyStrip s2.text = "") := hmem s2 (by simp)
  have ht3 : ¬ (pyStrip s3.text = "") := hmem s3 (by simp)
  have ht4 : ¬ (pyStrip s4.text = "") := hmem s4 (by simp)
  have ht5 : ¬ (pyStrip s5.text = "") := hmem s5 (by simp)
  have ha : a ≠ "" := h1 ▸ segmentLabel_ne_empty s1
  have hb : b ≠ "" := h3 ▸ segmentLabel_ne_empty s3
  have hba : b ≠ a := fun h => hab h.symm
  have hne : segs ≠ [] := by
    intro h
    rw [h] at hf
    simp at hf
  unfold aggregateSpeakerSegments
  rw [if_neg hne, aggregateGo_filter, hf]
  simp only [aggregateGo, h1, h2, h3, h4, h5]
  rw [if_neg ht1]
  rw [if_pos (show some a ≠ none by simp)]
  rw [if_neg ht2, if_neg (show ¬ (some a ≠ some a) by simp)]
  rw [if_neg ht3, if_pos (show some b ≠ some a by simp [hba])]
  rw [if_neg ht4, if_neg (show ¬ (some b ≠ some b) by simp)]
  rw [if_neg ht5, if_pos (show some a ≠ some b by simp [hab])]
  have flushNone : flushSpeaker none [] [] = [] := by
    simp [flushSpeaker, pyTruthy]
  have flushSome : ∀ (x : String) (t ls : List String), x ≠ "" → t ≠ [] →
      flushSpeaker (some x) t ls = ls ++ [x ++ ": " ++ String.intercalate " " t] := by
    intro x t ls hx ht
    simp [flushSpeaker, pyTruthy, hx, ht]
  simp only [List.singleton_append]
  rw [flushNone,
    flushSome a [pyStrip s1.text, pyStrip s2.text] _ ha (by simp),
    flushSome b [pyStrip s3.text, pyStrip s4.text] _ hb (by simp),
    flushSome a [pyStrip s5.text] _ ha (by simp)]
  simp

/-- C7 witness: five concrete segments labelled
`SPEAKER_00, SPEAKER_00, SPEAKER_01, SPEAKER_01, SPEAKER_00` (with an
interleaved whitespace-only segment that is skipped) aggregate to exactly
three `Speaker A` / `Speaker B` / `Speaker A` lines. -/
theorem c7_consecutive_only_merging_witness :
    aggregateSpeakerSegments
        [{ text := " one ", speaker := some "SPEAKER_00" },
         { text := "   ", speaker := some "SPEAKER_01" },
         { text := "two", speaker := some "SPEAKER_00" },
         { text := "three", speaker := some "SPEAKER_01" },
         { text := "four", speaker := some "SPEAKER_01" },
         { text := "five", speaker := some "SPEAKER_00" }]
      = String.intercalate "\n"
          ["Speaker A" ++ ": " ++ String.intercalate " " [pyStrip " one ", pyStrip "two"],
           "Speaker B" ++ ": " ++ String.intercalate " " [pyStrip "three", pyStrip "four"],
           "Speaker A" ++ ": " ++ String.intercalate " " [pyStrip "five"]] := by
  exact c7_consecutive_only_merging
    [{ text := " one ", speaker := some "SPEAKER_00" },
     { text := "   ", speaker := some "SPEAKER_01" },
     { text := "two", speaker := some "SPEAKER_00" },
     { text := "three", speaker := some "SPEAKER_01" },
     { text := "four", speaker := some "SPEAKER_01" },
     { text := "five", speaker := some "SPEAKER_00" }]
    { text := " one ", speaker := some "SPEAKER_00" }
    { text := "two", speaker := some "SPEAKER_00" }
    { text := "three", speaker := some "SPEAKER_01" }
    { text := "four", speaker := some "SPEAKER_01" }
    { text := "five", speaker := some "SPEAKER_00" }
    "Speaker A" "Speaker B"
    (by decide) (by decide) (by decide) (by decide) (by decide) (by decide) (by decide)

/-! ## C8 — speaker-label mapping -/

/-- C8 counterexample: `"SPEAKER_-3"` is not of the form `SPEAKER_<n>` for
a natural numeral (its numeric part is not all digits), so under the claim
it is "any other raw ID" and must pass through unchanged — but Python's
`int()` accepts the sign, so the source maps it to
`"Speaker " + chr(65 - 3)`, i.e. `"Speaker >"` (which is also not one of
the claimed letter labels `Speaker A`..`Speaker Z`). -/
theorem c8_counterexample :
    mapSpeakerLabel "SPEAKER_-3" = "Speaker >"
    ∧ "SPEAKER_-3" ≠ ""
    ∧ "SPEAKER_-3" ≠ "Unknown"
    ∧ (("SPEAKER_-3".data.drop 8).all Char.isDigit) = false
    ∧ "Speaker >" ≠ "SPEAKER_-3" := by
  exact ⟨by decide, by decide, by decide, by decide, by decide⟩

/-- C8 (amended): empty and `"Unknown"` map to the generic `"Speaker"`;
an ID starting with `SPEAKER_` whose part up to the next underscore
parses as a Python int `n` maps to `"Speaker " ++ chr(65+n)` for `n < 26`
(letters `A`–`Z` when `0 ≤ n`) and to `"Speaker " ++ toString (n+1)` for
`n ≥ 26`; an ID is passed through unchanged when it does not start with
`SPEAKER_`, when the parse fails, or when `chr` would fail
(`65 + n < 0`).  Unlike the original claim, the parsed part may carry a
sign or surrounding whitespace, so some IDs not of the digit form
`SPEAKER_<n>` are still converted. -/
theorem c8_speaker_label_mapping :
    mapSpeakerLabel "" = "Speaker"
    ∧ mapSpeakerLabel "Unknown" = "Speaker"
    ∧ (∀ (s : String) (n : Nat), pyStartsWith s "SPEAKER_" = true →
        pyInt (String.mk ((s.data.drop 8).takeWhile (· ≠ '_'))) = some (n : Int) →
        n < 26 →
        mapSpeakerLabel s = "Speaker " ++ String.singleton (Char.ofNat (65 + n)))
    ∧ (∀ (s : String) (n : Nat), pyStartsWith s "SPEAKER_" = true →
        pyInt (String.mk ((s.data.drop 8).takeWhile (· ≠ '_'))) = some (n : Int) →
        26 ≤ n →
        mapSpeakerLabel s = "Speaker " ++ toString ((n : Int) + 1))
    ∧ (∀ s : String, s ≠ "" → s ≠ "Unknown" → pyStartsWith s "SPEAKER_" = false →
        mapSpeakerLabel s = s)
    ∧ (∀ s : String, s ≠ "" → s ≠ "Unknown" →
        pyInt (String.mk ((s.data.drop 8).takeWhile (· ≠ '_'))) = none →
        mapSpeakerLabel s = s)
    ∧ (∀ (s : String) (m : Int), s ≠ "" → s ≠ "Unknown" →
        pyInt (String.mk ((s.data.drop 8).takeWhile (· ≠ '_'))) = some m →
        m < 26 → 65 + m < 0 →
        mapSpeakerLabel s = s) := by
  have notEU : ∀ s : String, pyStartsWith s "SPEAKER_" = true →
      ¬ (s = "" ∨ s = "Unknown") := by
    rintro s hstart (rfl | rfl) <;> exact absurd hstart (by decide)
  refine ⟨by decide, by decide, ?_, ?_, ?_, ?_, ?_⟩
  · intro s n hstart hparse hn
    unfold mapSpeakerLabel
    rw [if_neg (notEU s hstart), if_pos hstart]
    dsimp only
    rw [hparse]
    dsimp only
    rw [if_pos (by exact_mod_cast hn)]
    rw [if_neg (by omega)]
    have hcast : ((65 : Int) + (n : Int)).toNat = 65 + n := by omega
    rw [hcast]
  · intro s n hstart hparse hn
    unfold mapSpeakerLabel
    rw [if_neg (notEU s hstart), if_pos hstart]
    dsimp only
    rw [hparse]
    dsimp only
    rw [if_neg (by exact_mod_cast not_lt.mpr hn)]
  · intro s hse hsu hstart
    unfold mapSpeakerLabel
    rw [if_neg (by rintro (rfl | rfl) <;> simp_all), if_neg (by simp [hstart])]
  · intro s hse hsu hparse
    unfold mapSpeakerLabel
    rw [if_neg (by rintro (rfl | rfl) <;> simp_all)]
    by_cases hstart : pyStartsWith s "SPEAKER_" = true
    · rw [if_pos hstart]
      dsimp only
      rw [hparse]
    · rw [if_neg (by simp_all)]
  · intro s m hse hsu hparse hm26 hneg
    unfold mapSpeakerLabel
    rw [if_neg (by rintro (rfl | rfl) <;> simp_all)]
    by_cases hstart : pyStartsWith s "SPEAKER_" = true
    · rw [if_pos hstart]
      dsimp only
      rw [hparse]
      dsimp only
      rw [if_pos hm26, if_pos hneg]
    · rw [if_neg (by simp_all)]

/-- C8 witness: the amended mapping at the spec's own examples
(`SPEAKER_00`, `SPEAKER_26`) plus a pass-through ID (`Bob`) and a
failed-parse ID (`SPEAKER_ab`). -/
theorem c8_speaker_label_mapping_witness :
    mapSpeakerLabel "" = "Speaker"
    ∧ mapSpeakerLabel "SPEAKER_00" = "Speaker " ++ String.singleton (Char.ofNat 65)
    ∧ mapSpeakerLabel "SPEAKER_26" = "Speaker " ++ toString ((26 : Int) + 1)
    ∧ mapSpeakerLabel "Bob" = "Bob"
    ∧ mapSpeakerLabel "SPEAKER_ab" = "SPEAKER_ab" := by
  refine ⟨c8_speaker_label_mapping.1, ?_, ?_, ?_, ?_⟩
  · exact c8_speaker_label_mapping.2.2.1 "SPEAKER_00" 0 (by decide) (by decide) (by decide)
  · exact c8_speaker_label_mapping.2.2.2.1 "SPEAKER_26" 26 (by decide) (by decide) (by decide)
  · exact c8_speaker_label_mapping.2.2.2.2.1 "Bob" (by decide) (by decide) (by decide)
  · exact c8_speaker_label_mapping.2.2.2.2.2.1 "SPEAKER_ab" (by decide) (by decide) (by decide)

/-! ## C3 — audio preparation output contract -/

/-- C3 counterexample: the claim says every accepted input is re-encoded to
the deterministic temp path "even when the input is already a WAV file",
with the temp path recorded in the registry — but on a readable,
non-empty, non-silent `a.wav` the source returns the *original* path,
performs no export, and records nothing. -/
theorem c3_counterexample :
    prepareAudio
        { fileSize := fun _ => some 1000, decode := fun _ => some 5000,
          exportSize := fun _ => some 1 } [] "a.wav"
      = { output := some "a.wav", tempFiles := [], exported := none }
    ∧ (prepareAudio
        { fileSize := fun _ => some 1000, decode := fun _ => some 5000,
          exportSize := fun _ => some 1 } [] "a.wav").output
      ≠ some (pathJoin (dirname "a.wav") ("temp_" ++ basename "a.wav" ++ ".wav")) := by
  exact ⟨by decide, by decide⟩

/-- C3 (amended): for every accepted input whose (lower-cased) path does
*not* end in `.wav`, `prepare_audio` returns the deterministic temp path
`temp_<original-basename>.wav` colocated with the source, produced by a
16kHz-mono WAV export, and records it in the per-instance owned-temp
registry; an accepted input already ending in `.wav` is returned
unchanged, with no re-encoding and no registry entry. -/
theorem c3_prepare_audio_contract (env : MediaEnv) (tempFiles : List String)
    (path out : String) :
    (pyEndsWith (pyLower path) ".wav" = false →
      (prepareAudio env tempFiles path).output = some out →
      out = pathJoin (dirname path) ("temp_" ++ basename path ++ ".wav")
      ∧ (prepareAudio env tempFiles path).tempFiles = tempFiles.insert out
      ∧ (prepareAudio env tempFiles path).exported
          = some { outPath := out, format := "wav",
                   parameters := ["-ar", "16000", "-ac", "1"] })
    ∧ (pyEndsWith (pyLower path) ".wav" = true →
      (prepareAudio env tempFiles path).output = some out →
      out = path
      ∧ (prepareAudio env tempFiles path).tempFiles = tempFiles
      ∧ (prepareAudio env tempFiles path).exported = none) := by
  constructor <;> intro hwav hout <;>
  · cases hfs : env.fileSize path with
    | none => simp [prepareAudio, hfs] at hout
    | some sz =>
      by_cases hsz : sz = 0
      · simp [prepareAudio, hfs, hsz] at hout
      · cases hdec : env.decode path with
        | none => simp [prepareAudio, hfs, hsz, hdec] at hout
        | some dur =>
          by_cases hdur : dur = 0
          · simp [prepareAudio, hfs, hsz, hdec, hdur] at hout
          · first
            | (cases hexp : env.exportSize
                  (pathJoin (dirname path) ("temp_" ++ basename path ++ ".wav")) with
              | none =>
                  simp [prepareAudio, hfs, hsz, hdec, hdur, hwav, hexp] at hout
              | some exportedSize =>
                  by_cases hes : exportedSize = 0
                  · simp [prepareAudio, hfs, hsz, hdec, hdur, hwav, hexp, hes] at hout
                  · simp [prepareAudio, hfs, hsz, hdec, hdur, hwav, hexp, hes] at hout ⊢
                    simp [← hout])
            | (simp [prepareAudio, hfs, hsz, hdec, hdur, hwav] at hout ⊢
               simp [← hout])

/-- C3 witness: the amended theorem at a concrete non-WAV input
(`dir/a.mp3` becomes `dir/temp_a.mp3.wav`, exported and registered) and a
concrete WAV input (`a.wav` is returned as-is). -/
theorem c3_prepare_audio_contract_witness :
    ("dir/temp_a.mp3.wav"
        = pathJoin (dirname "dir/a.mp3") ("temp_" ++ basename "dir/a.mp3" ++ ".wav")
      ∧ (prepareAudio
          { fileSize := fun _ => some 1000, decode := fun _ => some 5000,
            exportSize := fun _ => some 1 } [] "dir/a.mp3").tempFiles
          = List.insert "dir/temp_a.mp3.wav" []
      ∧ (prepareAudio
          { fileSize := fun _ => some 1000, decode := fun _ => some 5000,
            exportSize := fun _ => some 1 } [] "dir/a.mp3").exported
          = some { outPath := "dir/temp_a.mp3.wav", format := "wav",
                   parameters := ["-ar", "16000", "-ac", "1"] })
    ∧ ("a.wav" = "a.wav"
      ∧ (prepareAudio
          { fileSize := fun _ => some 1000, decode := fun _ => some 5000,
            exportSize := fun _ => some 1 } [] "a.wav").tempFiles = []
      ∧ (prepareAudio
          { fileSize := fun _ => some 1000, decode := fun _ => some 5000,
            exportSize := fun _ => some 1 } [] "a.wav").exported = none) := by
  refine ⟨?_, ?_⟩
  · exact (c3_prepare_audio_contract
      { fileSize := fun _ => some 1000, decode := fun _ => some 5000,
        exportSize := fun _ => some 1 } [] "dir/a.mp3" "dir/temp_a.mp3.wav").1
      (by decide) (by decide)
  · exact (c3_prepare_audio_contract
      { fileSize := fun _ => some 1000, decode := fun _ => some 5000,
        exportSize := fun _ => some 1 } [] "a.wav" "a.wav").2
      (by decide) (by decide)

/-- C5 witness: the amended theorem at `apiKey = none`. -/
theorem c5_no_key_short_circuits_and_raises_witness :
    assemblyAIIsAvailable none = false
    ∧ assemblyAITranscribeFile (assemblyAIConfigured none)
        { progressEvents := [], apiCalled := false, outcome := Except.ok "unused" }
      = { progressEvents := [("error", -1)], apiCalled := false,
          outcome := Except.error noApiKeyMessage } :=
  c5_no_key_short_circuits_and_raises none (by decide)
    { progressEvents := [], apiCalled := false, outcome := Except.ok "unused" }

end Recall


